import Mathlib

/-!
Shallow embedding of `src/aws.js` from the ec2-github-runner action.

The source orchestrates the provisioning lifecycle of a single spot EC2
instance used as an ephemeral CI runner: it builds a boot (user-data)
script, creates a launch template, requests capacity through a fleet
request, waits for the instance to run, and tears everything down.

Modelling conventions:
  * Configuration inputs (`config.input.*`, `config.githubContext.*`) are
    fields of a `Config` structure.  JavaScript string truthiness
    (`if (config.input.x)`) is modelled as `x ≠ ""`.
  * Every AWS SDK call is a single RPC whose outcome is supplied as an
    oracle parameter of type `Except String _` (`.error e` models a
    rejected promise carrying `e`).
  * Each function returns the list of observable events it produces
    (SDK sends, `core.info` and `core.error` log lines) together with its
    own outcome; a thrown/propagated error is `.error e` in the second
    component.
  * The un-awaited `ec2.send(command)` in `deleteFleet` is modelled
    faithfully: the send event is emitted but its outcome is discarded,
    so `deleteFleet` itself always resolves successfully.
-/

set_option autoImplicit false

namespace EC2Runner

/-- The configuration surface of `src/config.js` consumed by `src/aws.js`:
action inputs plus the GitHub repository context.  Unset optional inputs
are the empty string (JavaScript-falsy). -/
structure Config where
  runnerHomeDir : String
  preRunnerScript : String
  runAsUser : String
  runAsService : Bool
  ec2ImageId : String
  securityGroupId : String
  iamRoleName : String
  ec2InstanceType : String
  subnetId : String
  templateId : String
  fleetId : String
  ec2InstanceId : String
  owner : String
  repo : String
  deriving Repr, DecidableEq

/-! ### Lines of the user-data boot script (`buildUserDataScript`) -/

/-- Shebang line of the boot script. -/
def shebangLine : String := "#!/bin/bash"

/-- Log-capture line mirroring script output to a log file and the system logger. -/
def execLine : String :=
  "exec > >(tee /var/log/user-data.log|logger -t user-data -s 2>/dev/console) 2>&1"

/-- Change-directory line entering the pre-installed runner home directory. -/
def cdLine (d : String) : String := "cd \"" ++ (d ++ "\"")

/-- Line creating and entering a fresh actions-runner working directory. -/
def mkdirLine : String := "mkdir actions-runner && cd actions-runner"

/-- Line writing the configured pre-runner script text into the file pre-runner-script.sh. -/
def echoPreLine (p : String) : String := "echo \"" ++ (p ++ "\" > pre-runner-script.sh")

/-- Line sourcing the file pre-runner-script.sh. -/
def sourceLine : String := "source pre-runner-script.sh"

/-- The architecture-detection branch of the script. -/
def caseLine : String :=
  "case $(uname -m) in aarch64) ARCH=\"arm64\" ;; amd64|x86_64) ARCH=\"x64\" ;; esac && export RUNNER_ARCH=$\x7bARCH\x7d"

/-- The download step of the script. -/
def curlLine : String :=
  "curl -O -L https://github.com/actions/runner/releases/download/v2.313.0/actions-runner-linux-$\x7bRUNNER_ARCH\x7d-2.313.0.tar.gz"

/-- The unpack step of the script. -/
def tarLine : String :=
  "tar xzf ./actions-runner-linux-$\x7bRUNNER_ARCH\x7d-2.313.0.tar.gz"

/-- Line allowing the runner to run as root. -/
def exportRootLine : String := "export RUNNER_ALLOW_RUNASROOT=1"

/-- Worker-registration line invoking config.sh with repository url, token and labels. -/
def configShLine (owner repo token label : String) : String :=
  "./config.sh --url https://github.com/" ++
    (owner ++ ("/" ++ (repo ++ (" --token " ++ (token ++ (" --labels " ++ label))))))

/-- Ownership-change line recursively applying runAsUser to the working directory. -/
def chownLine (u : String) : String := "chown -R " ++ (u ++ " .")

/-- Service-install line, taking the (possibly empty) runAsUser. -/
def svcInstallLine (u : String) : String := "./svc.sh install " ++ u

/-- Service-start line. -/
def svcStartLine : String := "./svc.sh start"

/-- Direct run command, under an su user switch when runAsUser is set. -/
def runCmdLine (u : String) : String :=
  (if u ≠ "" then "su " ++ (u ++ " -c") else "") ++ " ./run.sh"

/-- Source function `buildUserDataScript(githubRegistrationToken, label)`: the ordered list of
shell commands placed in the instance user data. -/
def buildUserDataScript (cfg : Config) (githubRegistrationToken label : String) :
    List String :=
  let userData :=
    if cfg.runnerHomeDir ≠ "" then
      [shebangLine, execLine, cdLine cfg.runnerHomeDir,
       echoPreLine cfg.preRunnerScript, sourceLine, exportRootLine,
       configShLine cfg.owner cfg.repo githubRegistrationToken label]
    else
      [shebangLine, execLine, mkdirLine,
       echoPreLine cfg.preRunnerScript, sourceLine,
       caseLine, curlLine, tarLine, exportRootLine,
       configShLine cfg.owner cfg.repo githubRegistrationToken label]
  let userData :=
    if cfg.runAsUser ≠ "" then userData ++ [chownLine cfg.runAsUser] else userData
  if cfg.runAsService then
    userData ++ [svcInstallLine cfg.runAsUser, svcStartLine]
  else
    userData ++ [runCmdLine cfg.runAsUser]

/-! ### Observable events and the fleet request -/

/-- One `(InstanceType, SubnetId)` entry of the override
list. -/
structure Override where
  instanceType : String
  subnetId : String
  deriving Repr, DecidableEq

/-- The builder of `instancesOverrides` in `startEc2Instance`:

    instanceTypes.forEach(type => subnets.forEach(subnet =>
      instancesOverrides.push({InstanceType: type, SubnetId: subnet})))

Each `push` appends to the accumulated array. -/
def mkInstancesOverrides (instanceTypes subnets : List String) : List Override :=
  instanceTypes.foldl
    (fun acc ty => subnets.foldl (fun acc2 sn => acc2 ++ [⟨ty, sn⟩]) acc)
    []

/-- Model of the JavaScript call `s.split(",")` on character lists:
splits at every comma, keeping empty segments. -/
def splitCommaAux : List Char → List (List Char)
  | [] => [[]]
  | c :: cs =>
    if c = ',' then [] :: splitCommaAux cs
    else
      match splitCommaAux cs with
      | h :: t => (c :: h) :: t
      | [] => [[c]]

/-- Model of the JavaScript call `s.split(",")`, as used on
`config.input.ec2InstanceType` and `config.input.subnetId`. -/
def splitComma (s : String) : List String := (splitCommaAux s.data).map fun l => ⟨l⟩

/-- The `CreateFleetCommand` input assembled by `startEc2Instance` (the
fields the source sets explicitly). -/
structure FleetInput where
  launchTemplateId : String
  launchTemplateVersion : String
  overrides : List Override
  allocationStrategy : String
  totalTargetCapacity : Nat
  defaultTargetCapacityType : String
  fleetType : String
  deriving Repr, DecidableEq

/-- The fleet input `startEc2Instance` sends for a given config and launch
template id: overrides from the (types × subnets) product, version
`$Latest`, spot allocation `price-capacity-optimized`, capacity 1,
type `instant`. -/
def fleetRequestInput (cfg : Config) (templateId : String) : FleetInput where
  launchTemplateId := templateId
  launchTemplateVersion := "$Latest"
  overrides :=
    mkInstancesOverrides (splitComma cfg.ec2InstanceType) (splitComma cfg.subnetId)
  allocationStrategy := "price-capacity-optimized"
  totalTargetCapacity := 1
  defaultTargetCapacityType := "spot"
  fleetType := "instant"

/-- What a successful `CreateFleet` RPC returns, as far as the source
reads it: `result.FleetId` and `result.Instances[i].InstanceIds[j]`. -/
structure FleetResult where
  fleetId : String
  instances : List (List String)
  deriving Repr, DecidableEq

/-- Observable effects: SDK sends and `core.info` / `core.error` log
lines. -/
inductive Event where
  | sendTerminate (instanceId : String)
  | sendDeleteLaunchTemplate (templateId : String)
  | sendDeleteFleets (fleetId : String)
  | sendCreateFleet (input : FleetInput)
  | waitCall (maxWaitTime : Nat) (filterName : String) (filterValues : List String)
  | info (msg : String)
  | errorLog (msg : String)
  deriving Repr, DecidableEq

/-! ### startEc2Instance -/

/-- Extraction `result.Instances[0].InstanceIds[0]`: indexing `Instances[0]` on an
empty array yields `undefined`, so the subsequent `.InstanceIds` access
throws (caught by the surrounding `try`); `InstanceIds[0]` on an empty
array is plain `undefined` (`none`), returned without error. -/
def extractInstanceId (res : FleetResult) : Except String (Option String) :=
  match res.instances.head? with
  | none => .error "TypeError: Cannot read properties of undefined"
  | some ids => .ok ids.head?

/-- Source function `startEc2Instance(label, githubRegistrationToken)`.

`createResult` is the outcome of `createLaunchTemplate`: the RPC may fail
(`.error`), or succeed returning `result.LaunchTemplate?.LaunchTemplateId`
(an `Option String`).  `fleetOutcome` is the outcome of the
`CreateFleetCommand` send.  Returns the produced events and either the
extracted instance id (possibly `undefined`) or the propagated error. -/
def startEc2Instance (cfg : Config)
    (createResult : Except String (Option String))
    (fleetOutcome : Except String FleetResult) :
    List Event × Except String (Option String) :=
  match createResult with
  | .error e => ([], .error e)
  | .ok none => ([], .error "failed to create launch template")
  | .ok (some templateId) =>
    let input := fleetRequestInput cfg templateId
    match fleetOutcome with
    | .error e =>
      ([.sendCreateFleet input, .errorLog "AWS EC2 instance starting error"], .error e)
    | .ok res =>
      match extractInstanceId res with
      | .error e =>
        ([.sendCreateFleet input, .errorLog "AWS EC2 instance starting error"], .error e)
      | .ok id? =>
        ([.sendCreateFleet input,
          .info ("AWS EC2 instance " ++ (id?.getD "undefined") ++ " is started")], .ok id?)

/-! ### Teardown -/

/-- Source function `deleteFleet()`: no-op with an informational notice when the fleet id
is falsy; otherwise the `DeleteFleetsCommand` send is issued WITHOUT
`await` — its outcome is discarded and the function resolves successfully
either way. -/
def deleteFleet (cfg : Config) (_sendOutcome : Except String Unit) :
    List Event × Except String Unit :=
  if cfg.fleetId = "" then
    ([.info "do not have fleet id. not delete anything"], .ok ())
  else
    -- `ec2.send(command)` is not awaited: `sendOutcome` is dropped.
    ([.sendDeleteFleets cfg.fleetId, .info "deleted ec2 fleet"], .ok ())

/-- Source function `deleteLaunchTemplate()`: no-op with an informational notice when the
template id is falsy; otherwise awaits the `DeleteLaunchTemplateCommand`
send, propagating its failure. -/
def deleteLaunchTemplate (cfg : Config) (sendOutcome : Except String Unit) :
    List Event × Except String Unit :=
  if cfg.templateId = "" then
    ([.info "do not have template id. not delete anything"], .ok ())
  else
    match sendOutcome with
    | .ok _ => ([.sendDeleteLaunchTemplate cfg.templateId, .info "delete launch template"], .ok ())
    | .error e => ([.sendDeleteLaunchTemplate cfg.templateId], .error e)

/-- Error message logged by the catch block of `terminateEc2Instance`. -/
def terminationErrorMsg (cfg : Config) : String :=
  "AWS EC2 instance " ++ cfg.ec2InstanceId ++ " termination error"

/-- Source function `terminateEc2Instance()`: inside one `try` block it awaits the
`TerminateInstancesCommand` send, then `deleteLaunchTemplate()`, then
`deleteFleet()`; any error reaching the `catch` is logged and re-thrown. -/
def terminateEc2Instance (cfg : Config)
    (terminateOutcome templateSendOutcome fleetSendOutcome : Except String Unit) :
    List Event × Except String Unit :=
  match terminateOutcome with
  | .error e =>
    ([.sendTerminate cfg.ec2InstanceId, .errorLog (terminationErrorMsg cfg)], .error e)
  | .ok _ =>
    let pre : List Event :=
      [.sendTerminate cfg.ec2InstanceId,
       .info ("AWS EC2 instance " ++ cfg.ec2InstanceId ++ " is terminated")]
    let r1 := deleteLaunchTemplate cfg templateSendOutcome
    match r1.2 with
    | .error e => (pre ++ r1.1 ++ [.errorLog (terminationErrorMsg cfg)], .error e)
    | .ok _ =>
      let r2 := deleteFleet cfg fleetSendOutcome
      match r2.2 with
      | .error e => (pre ++ r1.1 ++ r2.1 ++ [.errorLog (terminationErrorMsg cfg)], .error e)
      | .ok _ => (pre ++ r1.1 ++ r2.1, .ok ())

/-! ### waitForInstanceRunning -/

/-- Source function `waitForInstanceRunning(ec2InstanceId)`: logs, calls
`waitUntilInstanceRunning` with `maxWaitTime: 300` and an `instance-id`
filter on the given id, and either logs success or logs and re-throws the
error of the waiter. -/
def waitForInstanceRunning (ec2InstanceId : String)
    (waitOutcome : Except String Unit) : List Event × Except String Unit :=
  let checking := Event.info ("Checking for instance " ++ ec2InstanceId ++ " to be up and running")
  let call := Event.waitCall 300 "instance-id" [ec2InstanceId]
  match waitOutcome with
  | .ok _ =>
    ([checking, call, .info ("AWS EC2 instance " ++ ec2InstanceId ++ " is up and running")], .ok ())
  | .error e =>
    ([checking, call, .errorLog ("AWS EC2 instance " ++ ec2InstanceId ++ " initialization error")], .error e)

/-! ### Auxiliary definitions for the verification -/

/-- First two characters of a string; script lines embedding arbitrary
configuration substrings are told apart by their constant first two
characters. -/
def take2 (s : String) : List Char := s.data.take 2

/-- Sample configuration: fresh-install runner, no optional inputs set. -/
def baseConfig : Config where
  runnerHomeDir := ""
  preRunnerScript := "sudo yum update"
  runAsUser := ""
  runAsService := false
  ec2ImageId := "ami-0abc"
  securityGroupId := "sg-0abc"
  iamRoleName := "runner-role"
  ec2InstanceType := "t3.micro"
  subnetId := "subnet-a"
  templateId := ""
  fleetId := ""
  ec2InstanceId := "i-0123"
  owner := "octo"
  repo := "widgets"

/-- Sample teardown configuration holding both delete identifiers. -/
def fullTeardownConfig : Config :=
  { baseConfig with templateId := "lt-1", fleetId := "fleet-1" }

/-- Sample teardown configuration holding only a fleet id. -/
def fleetOnlyConfig : Config := { baseConfig with fleetId := "fleet-123" }

/-- Sample configuration with two instance types and two subnets. -/
def twoByTwoConfig : Config :=
  { baseConfig with
      ec2InstanceType := "t3.micro,t3.small"
      subnetId := "subnet-a,subnet-b" }

/-- Sample configuration with a pre-installed runner home, a run-as user
and service mode. -/
def homeServiceConfig : Config :=
  { baseConfig with
      runnerHomeDir := "/opt/runner"
      runAsUser := "ubuntu"
      runAsService := true }

/-- Sample configuration with a run-as user and no service mode. -/
def suRunConfig : Config := { baseConfig with runAsUser := "ubuntu" }

/-! ## Helper lemmas -/

theorem foldl_push_eq_append_map {α β : Type} (f : α → β) (l : List α) (acc : List β) :
    l.foldl (fun a x => a ++ [f x]) acc = acc ++ l.map f := by
  induction l generalizing acc with
  | nil => simp
  | cons x xs ih => simp [ih]

theorem foldl_append_eq_flatMap {α β : Type} (g : α → List β) (l : List α) (acc : List β) :
    l.foldl (fun a x => a ++ g x) acc = acc ++ l.flatMap g := by
  induction l generalizing acc with
  | nil => simp
  | cons x xs ih => simp [ih]

theorem mkInstancesOverrides_go (ss ts : List String) (acc : List Override) :
    ts.foldl (fun acc ty => ss.foldl (fun a sn => a ++ [⟨ty, sn⟩]) acc) acc =
      acc ++ ts.flatMap fun t => ss.map fun s => ⟨t, s⟩ := by
  simp only [foldl_push_eq_append_map]
  rw [foldl_append_eq_flatMap]

/-- The override list is the cartesian product with instance types as the
outer iteration and subnets as the inner one. -/
theorem mkInstancesOverrides_eq_flatMap (ts ss : List String) :
    mkInstancesOverrides ts ss = ts.flatMap fun t => ss.map fun s => ⟨t, s⟩ := by
  rw [mkInstancesOverrides, mkInstancesOverrides_go]
  simp

theorem mkInstancesOverrides_length (ts ss : List String) :
    (mkInstancesOverrides ts ss).length = ts.length * ss.length := by
  rw [mkInstancesOverrides_eq_flatMap]
  induction ts with
  | nil => simp
  | cons t ts ih => simp [ih, Nat.succ_mul, Nat.add_comm]

theorem ne_of_take2_ne {s t : String} (h : take2 s ≠ take2 t) : s ≠ t :=
  fun e => h (by rw [e])

theorem ne_of_take2_lists {s t : String} {cs ds : List Char}
    (hs : take2 s = cs) (ht : take2 t = ds) (h : cs ≠ ds) : s ≠ t :=
  ne_of_take2_ne (by rw [hs, ht]; exact h)

theorem two_le_data_append (a b : String) (h : 2 ≤ a.data.length) :
    2 ≤ (a ++ b).data.length := by
  show 2 ≤ (a.data ++ b.data).length
  rw [List.length_append]
  omega

theorem take2_append_left (a b : String) (h : 2 ≤ a.data.length) :
    take2 (a ++ b) = take2 a :=
  List.take_append_of_le_length h

theorem take2_cdLine (d : String) : take2 (cdLine d) = ['c', 'd'] := by
  rw [cdLine, take2_append_left _ _ (by decide)]
  decide

theorem take2_echoPreLine (p : String) : take2 (echoPreLine p) = ['e', 'c'] := by
  rw [echoPreLine, take2_append_left _ _ (by decide)]
  decide

theorem take2_configShLine (o r t l : String) :
    take2 (configShLine o r t l) = ['.', '/'] := by
  rw [configShLine, take2_append_left _ _ (by decide)]
  decide

theorem take2_chownLine (u : String) : take2 (chownLine u) = ['c', 'h'] := by
  rw [chownLine, take2_append_left _ _ (by decide)]
  decide

theorem take2_svcInstallLine (u : String) : take2 (svcInstallLine u) = ['.', '/'] := by
  rw [svcInstallLine, take2_append_left _ _ (by decide)]
  decide

theorem runCmdLine_empty : runCmdLine "" = " ./run.sh" := by decide

theorem take2_runCmdLine_pos (u : String) (h : u ≠ "") :
    take2 (runCmdLine u) = ['s', 'u'] := by
  rw [runCmdLine, if_pos h]
  rw [take2_append_left _ _ (two_le_data_append _ _ (by decide))]
  rw [take2_append_left _ _ (by decide)]
  decide

/-! ## Claims about teardown and provisioning control flow -/

/-- C1, counterexample: with both identifiers present, when termination
succeeds and the launch-template delete send fails, the fleet delete is
NOT attempted (no `sendDeleteFleets` event occurs), refuting the claim
that the fleet delete operation is still invoked. -/
theorem c1_counterexample :
    terminateEc2Instance fullTeardownConfig (.ok ()) (.error "boom") (.ok ()) =
      ([.sendTerminate "i-0123", .info "AWS EC2 instance i-0123 is terminated",
        .sendDeleteLaunchTemplate "lt-1",
        .errorLog "AWS EC2 instance i-0123 termination error"], .error "boom") ∧
    Event.sendDeleteFleets "fleet-1" ∉
      (terminateEc2Instance fullTeardownConfig (.ok ()) (.error "boom") (.ok ())).1 := by
  constructor
  · rfl
  · decide

/-- C1, amended: during teardown, after instance termination has
succeeded, a failure in the launch-template delete step ABORTS the rest
of the teardown — the fleet delete is not attempted — while the delete
failure still propagates to the caller. -/
theorem c1_template_delete_failure_skips_fleet (cfg : Config) (e : String)
    (fo : Except String Unit) (ht : cfg.templateId ≠ "") :
    (terminateEc2Instance cfg (.ok ()) (.error e) fo).2 = .error e ∧
    ∀ f, Event.sendDeleteFleets f ∉ (terminateEc2Instance cfg (.ok ()) (.error e) fo).1 := by
  constructor
  · simp [terminateEc2Instance, deleteLaunchTemplate, ht]
  · intro f
    simp [terminateEc2Instance, deleteLaunchTemplate, ht]

/-- C1, witness for the amended theorem at a concrete teardown
configuration. -/
theorem c1_template_delete_failure_skips_fleet_witness :
    (terminateEc2Instance fullTeardownConfig (.ok ()) (.error "eboom") (.ok ())).2 =
      .error "eboom" ∧
    Event.sendDeleteFleets "fleet-1" ∉
      (terminateEc2Instance fullTeardownConfig (.ok ()) (.error "eboom") (.ok ())).1 :=
  ⟨(c1_template_delete_failure_skips_fleet fullTeardownConfig "eboom" (.ok ())
      (by decide)).1,
   (c1_template_delete_failure_skips_fleet fullTeardownConfig "eboom" (.ok ())
      (by decide)).2 "fleet-1"⟩

/-- C2: code bug — the fleet-delete send is issued without `await`, so a
failing provider call is silently swallowed: with a non-empty fleet id
and a failing `DeleteFleets` send, `deleteFleet` still logs the success
notice and resolves with no error observable to the caller. -/
theorem c2_fleet_delete_failure_swallowed :
    deleteFleet fleetOnlyConfig (.error "delete fleet failed") =
      ([.sendDeleteFleets "fleet-123", .info "deleted ec2 fleet"], .ok ()) := rfl

/-- C3: whenever `createLaunchTemplate` yields no template id — the call
failed, or succeeded without an id — `startEc2Instance` raises an error
and the fleet request is never attempted (no events at all, in
particular no `sendCreateFleet`). -/
theorem c3_no_fleet_without_template_id (cfg : Config)
    (fo : Except String FleetResult) :
    startEc2Instance cfg (.ok none) fo =
      ([], .error "failed to create launch template") ∧
    ∀ e, startEc2Instance cfg (.error e) fo = ([], .error e) := by
  exact ⟨rfl, fun e => rfl⟩

/-- C5: when both the launch-template id and the fleet id are empty, each
delete helper emits exactly one informational no-op notice and issues no
provider delete call, and the whole teardown performs only the instance
termination step. -/
theorem c5_cleanup_noop_on_missing_ids (cfg : Config)
    (o1 o2 : Except String Unit) (ht : cfg.templateId = "") (hf : cfg.fleetId = "") :
    deleteLaunchTemplate cfg o1 =
      ([.info "do not have template id. not delete anything"], .ok ()) ∧
    deleteFleet cfg o2 =
      ([.info "do not have fleet id. not delete anything"], .ok ()) ∧
    terminateEc2Instance cfg (.ok ()) o1 o2 =
      ([.sendTerminate cfg.ec2InstanceId,
        .info ("AWS EC2 instance " ++ cfg.ec2InstanceId ++ " is terminated"),
        .info "do not have template id. not delete anything",
        .info "do not have fleet id. not delete anything"], .ok ()) := by
  refine ⟨?_, ?_, ?_⟩ <;> simp [deleteLaunchTemplate, deleteFleet, terminateEc2Instance, ht, hf]

/-- C5, witness at the base configuration, whose two identifiers are
empty. -/
theorem c5_cleanup_noop_on_missing_ids_witness :
    deleteLaunchTemplate baseConfig (.ok ()) =
      ([.info "do not have template id. not delete anything"], .ok ()) ∧
    deleteFleet baseConfig (.ok ()) =
      ([.info "do not have fleet id. not delete anything"], .ok ()) ∧
    terminateEc2Instance baseConfig (.ok ()) (.ok ()) (.ok ()) =
      ([.sendTerminate baseConfig.ec2InstanceId,
        .info ("AWS EC2 instance " ++ baseConfig.ec2InstanceId ++ " is terminated"),
        .info "do not have template id. not delete anything",
        .info "do not have fleet id. not delete anything"], .ok ()) :=
  c5_cleanup_noop_on_missing_ids baseConfig (.ok ()) (.ok ()) rfl rfl

/-- C6: if the terminate call itself fails, the teardown aborts — neither
delete helper is reached (the only events are the terminate send and the
error log) — and the termination error propagates to the caller. -/
theorem c6_terminate_failure_aborts (cfg : Config) (e : String)
    (o1 o2 : Except String Unit) :
    terminateEc2Instance cfg (.error e) o1 o2 =
      ([.sendTerminate cfg.ec2InstanceId, .errorLog (terminationErrorMsg cfg)],
       .error e) := rfl

/-- C9: `waitForInstanceRunning` invokes the wait primitive with
`maxWaitTime` exactly 300 and an instance-id filter on the given id (and
with no other wait call), resolves when the waiter succeeds within that
window, and propagates the error on timeout or provider failure. -/
theorem c9_wait_bounded_300 (id : String) (o : Except String Unit) :
    Event.waitCall 300 "instance-id" [id] ∈ (waitForInstanceRunning id o).1 ∧
    (∀ m n vs, Event.waitCall m n vs ∈ (waitForInstanceRunning id o).1 →
      m = 300 ∧ n = "instance-id" ∧ vs = [id]) ∧
    (o = .ok () → (waitForInstanceRunning id o).2 = .ok ()) ∧
    (∀ e, o = .error e → (waitForInstanceRunning id o).2 = .error e) := by
  cases o with
  | ok u =>
    refine ⟨by simp [waitForInstanceRunning], ?_, fun _ => rfl, fun e h => by cases h⟩
    intro m n vs hmem
    simp only [waitForInstanceRunning, List.mem_cons, List.not_mem_nil, or_false] at hmem
    rcases hmem with h | h | h
    · exact Event.noConfusion h
    · injection h with h1 h2 h3
      exact ⟨h1, h2, h3⟩
    · exact Event.noConfusion h
  | error e =>
    refine ⟨by simp [waitForInstanceRunning], ?_, ?_, ?_⟩
    · intro m n vs hmem
      simp only [waitForInstanceRunning, List.mem_cons, List.not_mem_nil, or_false] at hmem
      rcases hmem with h | h | h
      · exact Event.noConfusion h
      · injection h with h1 h2 h3
        exact ⟨h1, h2, h3⟩
      · exact Event.noConfusion h
    · intro h
      cases h
    · intro f h
      cases h
      rfl

/-- C9, witness at a concrete instance id with a succeeding waiter. -/
theorem c9_wait_bounded_300_witness :
    Event.waitCall 300 "instance-id" ["i-0123"] ∈
      (waitForInstanceRunning "i-0123" (.ok ())).1 ∧
    (waitForInstanceRunning "i-0123" (.ok ())).2 = .ok () :=
  ⟨(c9_wait_bounded_300 "i-0123" (.ok ())).1,
   (c9_wait_bounded_300 "i-0123" (.ok ())).2.2.1 rfl⟩

/-- C4: for every configuration whose (comma-split) instance-type and
subnet lists are non-empty, the override list of the fleet request is
exactly the cartesian product — instance types as the outer iteration,
subnets as the inner one — of length `types × subnets`; in particular the
2×2 sample configuration yields exactly the four pairs in that order. -/
theorem c4_overrides_cartesian (cfg : Config) (tid : String)
    (ht : splitComma cfg.ec2InstanceType ≠ [])
    (hs : splitComma cfg.subnetId ≠ []) :
    (fleetRequestInput cfg tid).overrides =
      (splitComma cfg.ec2InstanceType).flatMap
        (fun t => (splitComma cfg.subnetId).map fun s => ⟨t, s⟩) ∧
    (fleetRequestInput cfg tid).overrides.length =
      (splitComma cfg.ec2InstanceType).length * (splitComma cfg.subnetId).length ∧
    (fleetRequestInput twoByTwoConfig "lt-0").overrides =
      [⟨"t3.micro", "subnet-a"⟩, ⟨"t3.micro", "subnet-b"⟩,
       ⟨"t3.small", "subnet-a"⟩, ⟨"t3.small", "subnet-b"⟩] := by
  refine ⟨mkInstancesOverrides_eq_flatMap _ _, mkInstancesOverrides_length _ _, ?_⟩
  decide

/-- C4, witness at the 2×2 sample configuration. -/
theorem c4_overrides_cartesian_witness :
    (fleetRequestInput twoByTwoConfig "lt-1").overrides =
      (splitComma twoByTwoConfig.ec2InstanceType).flatMap
        (fun t => (splitComma twoByTwoConfig.subnetId).map fun s => ⟨t, s⟩) ∧
    (fleetRequestInput twoByTwoConfig "lt-1").overrides.length =
      (splitComma twoByTwoConfig.ec2InstanceType).length *
        (splitComma twoByTwoConfig.subnetId).length :=
  ⟨(c4_overrides_cartesian twoByTwoConfig "lt-1" (by decide) (by decide)).1,
   (c4_overrides_cartesian twoByTwoConfig "lt-1" (by decide) (by decide)).2.1⟩

set_option maxHeartbeats 1600000 in
/-- Occurrence count of the architecture-detection, download and unpack
lines in the generated script: one each in the fresh-install branch, zero
in the pre-installed-home branch, whatever the remaining configuration
fields hold. -/
theorem count_arch_lines (cfg : Config) (tok lab x : String)
    (hx : x = caseLine ∨ x = curlLine ∨ x = tarLine) :
    (buildUserDataScript cfg tok lab).count x =
      if cfg.runnerHomeDir = "" then 1 else 0 := by
  have h1 : echoPreLine cfg.preRunnerScript ≠ x := by
    apply ne_of_take2_ne
    rw [take2_echoPreLine]
    rcases hx with h | h | h <;> subst h <;> decide
  have h2 : configShLine cfg.owner cfg.repo tok lab ≠ x := by
    apply ne_of_take2_ne
    rw [take2_configShLine]
    rcases hx with h | h | h <;> subst h <;> decide
  have h3 : chownLine cfg.runAsUser ≠ x := by
    apply ne_of_take2_ne
    rw [take2_chownLine]
    rcases hx with h | h | h <;> subst h <;> decide
  have h4 : svcInstallLine cfg.runAsUser ≠ x := by
    apply ne_of_take2_ne
    rw [take2_svcInstallLine]
    rcases hx with h | h | h <;> subst h <;> decide
  have h5 : runCmdLine cfg.runAsUser ≠ x := by
    rcases eq_or_ne cfg.runAsUser "" with hu | hu
    · rw [hu, runCmdLine_empty]
      rcases hx with h | h | h <;> subst h <;> decide
    · apply ne_of_take2_ne
      rw [take2_runCmdLine_pos _ hu]
      rcases hx with h | h | h <;> subst h <;> decide
  have h6 : cdLine cfg.runnerHomeDir ≠ x := by
    apply ne_of_take2_ne
    rw [take2_cdLine]
    rcases hx with h | h | h <;> subst h <;> decide
  rcases eq_or_ne cfg.runnerHomeDir "" with hh | hh <;>
    rcases eq_or_ne cfg.runAsUser "" with hu | hu <;>
      rcases Bool.eq_false_or_eq_true cfg.runAsService with hs | hs <;>
        rcases hx with h | h | h <;> subst h <;>
          simp [buildUserDataScript, hh, hu, hs, h1, h2, h3, h4, h5, h6,
                List.count_append, List.count_cons, List.count_nil, beq_iff_eq] <;>
          decide

/-- C7: with runnerHomeDir unset, the generated boot script contains
exactly one architecture-detection branch and exactly one
download/unpack step (one download line and one unpack line); with
runnerHomeDir set it contains neither. -/
theorem c7_arch_download_unpack (cfg : Config) (tok lab : String) :
    (cfg.runnerHomeDir = "" →
      (buildUserDataScript cfg tok lab).count caseLine = 1 ∧
      (buildUserDataScript cfg tok lab).count curlLine = 1 ∧
      (buildUserDataScript cfg tok lab).count tarLine = 1) ∧
    (cfg.runnerHomeDir ≠ "" →
      (buildUserDataScript cfg tok lab).count caseLine = 0 ∧
      (buildUserDataScript cfg tok lab).count curlLine = 0 ∧
      (buildUserDataScript cfg tok lab).count tarLine = 0) := by
  have e1 := count_arch_lines cfg tok lab caseLine (Or.inl rfl)
  have e2 := count_arch_lines cfg tok lab curlLine (Or.inr (Or.inl rfl))
  have e3 := count_arch_lines cfg tok lab tarLine (Or.inr (Or.inr rfl))
  constructor
  · intro h
    rw [if_pos h] at e1 e2 e3
    exact ⟨e1, e2, e3⟩
  · intro h
    rw [if_neg h] at e1 e2 e3
    exact ⟨e1, e2, e3⟩

/-- C7, witness: the base configuration has no runner home directory and
scores one of each line; the home-service configuration has one and
scores zero. -/
theorem c7_arch_download_unpack_witness :
    ((buildUserDataScript baseConfig "tok" "lab").count caseLine = 1 ∧
     (buildUserDataScript baseConfig "tok" "lab").count curlLine = 1 ∧
     (buildUserDataScript baseConfig "tok" "lab").count tarLine = 1) ∧
    ((buildUserDataScript homeServiceConfig "tok" "lab").count caseLine = 0 ∧
     (buildUserDataScript homeServiceConfig "tok" "lab").count curlLine = 0 ∧
     (buildUserDataScript homeServiceConfig "tok" "lab").count tarLine = 0) :=
  ⟨(c7_arch_download_unpack baseConfig "tok" "lab").1 rfl,
   (c7_arch_download_unpack homeServiceConfig "tok" "lab").2 (by decide)⟩

/-- Auxiliary: the direct run command differs from any line that the
empty-user run command differs from and whose first two characters are
not those of an su invocation. -/
theorem runCmdLine_ne {t : String} (h1 : runCmdLine "" ≠ t) (h2 : take2 t ≠ ['s', 'u'])
    (u : String) : runCmdLine u ≠ t := by
  rcases eq_or_ne u "" with hu | hu
  · rw [hu]
    exact h1
  · apply ne_of_take2_ne
    rw [take2_runCmdLine_pos u hu]
    exact fun e => h2 e.symm

/-- C8: with runAsService true, the generated script ends with the
service-install command immediately followed by the service-start
command as its final two entries and contains no direct run command (for
any user); with runAsService false and runAsUser set, the final run
command is prefixed by an su invocation naming that user. -/
theorem c8_service_mode_and_su (cfg : Config) (tok lab : String) :
    (cfg.runAsService = true →
      (∃ pre, buildUserDataScript cfg tok lab =
        pre ++ [svcInstallLine cfg.runAsUser, svcStartLine]) ∧
      ∀ u, runCmdLine u ∉ buildUserDataScript cfg tok lab) ∧
    (cfg.runAsService = false → cfg.runAsUser ≠ "" →
      (buildUserDataScript cfg tok lab).getLast? =
        some ("su " ++ (cfg.runAsUser ++ " -c") ++ " ./run.sh")) := by
  constructor
  · intro hsv
    constructor
    · simp only [buildUserDataScript, hsv, if_true]
      exact ⟨_, rfl⟩
    · intro u
      have n1 : runCmdLine u ≠ shebangLine := runCmdLine_ne (by decide) (by decide) u
      have n2 : runCmdLine u ≠ execLine := runCmdLine_ne (by decide) (by decide) u
      have n3 : runCmdLine u ≠ mkdirLine := runCmdLine_ne (by decide) (by decide) u
      have n4 : runCmdLine u ≠ sourceLine := runCmdLine_ne (by decide) (by decide) u
      have n5 : runCmdLine u ≠ caseLine := runCmdLine_ne (by decide) (by decide) u
      have n6 : runCmdLine u ≠ curlLine := runCmdLine_ne (by decide) (by decide) u
      have n7 : runCmdLine u ≠ tarLine := runCmdLine_ne (by decide) (by decide) u
      have n8 : runCmdLine u ≠ exportRootLine := runCmdLine_ne (by decide) (by decide) u
      have n9 : runCmdLine u ≠ svcStartLine := runCmdLine_ne (by decide) (by decide) u
      have n10 : ∀ d, runCmdLine u ≠ cdLine d := fun d =>
        runCmdLine_ne (ne_of_take2_ne (by rw [take2_cdLine]; decide))
          (by rw [take2_cdLine]; decide) u
      have n11 : ∀ p, runCmdLine u ≠ echoPreLine p := fun p =>
        runCmdLine_ne (ne_of_take2_ne (by rw [take2_echoPreLine]; decide))
          (by rw [take2_echoPreLine]; decide) u
      have n12 : ∀ a b c d, runCmdLine u ≠ configShLine a b c d := fun a b c d =>
        runCmdLine_ne (ne_of_take2_ne (by rw [take2_configShLine]; decide))
          (by rw [take2_configShLine]; decide) u
      have n13 : ∀ v, runCmdLine u ≠ chownLine v := fun v =>
        runCmdLine_ne (ne_of_take2_ne (by rw [take2_chownLine]; decide))
          (by rw [take2_chownLine]; decide) u
      have n14 : ∀ v, runCmdLine u ≠ svcInstallLine v := fun v =>
        runCmdLine_ne (ne_of_take2_ne (by rw [take2_svcInstallLine]; decide))
          (by rw [take2_svcInstallLine]; decide) u
      rcases eq_or_ne cfg.runnerHomeDir "" with hh | hh <;>
        rcases eq_or_ne cfg.runAsUser "" with hu | hu <;>
          simp [buildUserDataScript, hh, hu, hsv, n1, n2, n3, n4, n5, n6, n7, n8, n9,
                n10, n11, n12, n13, n14]
  · intro hsv hu
    rcases eq_or_ne cfg.runnerHomeDir "" with hh | hh <;>
      simp [buildUserDataScript, hsv, hu, hh, runCmdLine,
            List.getLast?_concat]

/-- C8, witness: service mode at the home-service configuration, and the
su-prefixed run command at the su-run configuration. -/
theorem c8_service_mode_and_su_witness :
    ((∃ pre, buildUserDataScript homeServiceConfig "tok" "lab" =
        pre ++ [svcInstallLine homeServiceConfig.runAsUser, svcStartLine]) ∧
      ∀ u, runCmdLine u ∉ buildUserDataScript homeServiceConfig "tok" "lab") ∧
    (buildUserDataScript suRunConfig "tok" "lab").getLast? =
      some ("su " ++ (suRunConfig.runAsUser ++ " -c") ++ " ./run.sh") :=
  ⟨(c8_service_mode_and_su homeServiceConfig "tok" "lab").1 rfl,
   (c8_service_mode_and_su suRunConfig "tok" "lab").2 rfl (by decide)⟩

/-- C10: in both branches of the script builder, the generated script
writes the configured pre-runner script text to pre-runner-script.sh and
immediately afterwards sources that file, and both commands occur before
the worker-registration (config.sh) command. -/
theorem c10_pre_runner_script_before_config (cfg : Config) (tok lab : String) :
    ∃ pre mid post : List String,
      buildUserDataScript cfg tok lab =
        pre ++ echoPreLine cfg.preRunnerScript :: sourceLine ::
          (mid ++ configShLine cfg.owner cfg.repo tok lab :: post) := by
  refine ⟨if cfg.runnerHomeDir ≠ "" then [shebangLine, execLine, cdLine cfg.runnerHomeDir]
      else [shebangLine, execLine, mkdirLine],
    if cfg.runnerHomeDir ≠ "" then [exportRootLine]
      else [caseLine, curlLine, tarLine, exportRootLine],
    (if cfg.runAsUser ≠ "" then [chownLine cfg.runAsUser] else []) ++
      (if cfg.runAsService then [svcInstallLine cfg.runAsUser, svcStartLine]
        else [runCmdLine cfg.runAsUser]), ?_⟩
  rcases eq_or_ne cfg.runnerHomeDir "" with hh | hh <;>
    rcases eq_or_ne cfg.runAsUser "" with hu | hu <;>
      rcases Bool.eq_false_or_eq_true cfg.runAsService with hs | hs <;>
        simp [buildUserDataScript, hh, hu, hs]

end EC2Runner
